import Mathlib

/-!
A shallow embedding, in Lean 4, of the core of the `openmls` public-group
engine: the `PublicGroup` state value, its `merge_diff` / `free_leaf_index` /
`from_external` operations, the wire-level `SignatureScheme` codes of the
crypto-traits crate, and a model of the commit validation and staging
pipeline (ValSem checks, path-required classifier, partial-proposal
resolution) described by the repository's specification and exercised by its
commit-validation tests.

Byte strings are modelled as `List Nat`; machine integers as `Nat`.
Cryptographic capabilities (hashing, MACs, signature verification,
serialization) are injected as explicit function parameters, mirroring the
provider-as-capability design of the source.
-/

instance {ε α : Type} [DecidableEq ε] [DecidableEq α] :
    DecidableEq (Except ε α) := fun x y =>
  match x, y with
  | .ok a, .ok b =>
    if h : a = b then isTrue (by rw [h])
    else isFalse (fun hc => h (Except.ok.inj hc))
  | .error e, .error f =>
    if h : e = f then isTrue (by rw [h])
    else isFalse (fun hc => h (Except.error.inj hc))
  | .ok _, .error _ => isFalse (fun hc => Except.noConfusion hc)
  | .error _, .ok _ => isFalse (fun hc => Except.noConfusion hc)

abbrev Bytes := List Nat

abbrev Extensions := List Nat

abbrev ConfirmationTag := Bytes

/-- `LibraryError`: internal invariant violation, carrying a message. -/
inductive LibraryError where
  | custom (msg : String)
deriving DecidableEq, Repr

/-- Protocol versions; the source only treats MLS 1.0 as supported. -/
inductive ProtocolVersion where
  | Mls10
  | Other
deriving DecidableEq, Repr

/-- A ciphersuite, reduced to the two algorithm identifiers the embedded
operations consult: its signature algorithm and its hash algorithm. -/
structure Ciphersuite where
  signature_algorithm : Nat
  hash_algorithm : Nat
deriving DecidableEq, Repr

/-! ## SignatureScheme (traits crate, `types.rs`) -/

/-- SignatureScheme according to IANA TLS parameters (`types.rs`). -/
inductive SignatureScheme where
  | ECDSA_SECP256R1_SHA256
  | ECDSA_SECP521R1_SHA512
  | ED25519
  | ED448
deriving DecidableEq, Repr

/-- The `repr(u16)` wire code of each `SignatureScheme` variant. -/
def SignatureScheme.toU16 : SignatureScheme → Nat
  | .ECDSA_SECP256R1_SHA256 => 0x0403
  | .ECDSA_SECP521R1_SHA512 => 0x0603
  | .ED25519 => 0x0807
  | .ED448 => 0x0808

/-- `TryFrom<u16> for SignatureScheme` (`types.rs`): the four IANA codes
succeed, everything else is an error. -/
def SignatureScheme.tryFrom (value : Nat) : Except String SignatureScheme :=
  if value = 0x0403 then .ok SignatureScheme.ECDSA_SECP256R1_SHA256
  else if value = 0x0603 then .ok SignatureScheme.ECDSA_SECP521R1_SHA512
  else if value = 0x0807 then .ok SignatureScheme.ED25519
  else if value = 0x0808 then .ok SignatureScheme.ED448
  else .error ("Unsupported SignatureScheme: " ++ toString value)

/-! ## Proposals -/

/-- A leaf node: the tree-resident record of one member.  Reduced to the
fields the embedded operations consult: the signature public key and an
opaque credential. -/
structure LeafNode where
  signature_key : Bytes
  credential : Bytes
deriving DecidableEq, Repr

/-- A key package, reduced to the leaf node an Add proposal installs. -/
structure KeyPackage where
  leaf_node : LeafNode
deriving DecidableEq, Repr

/-- Modelled from the spec: `Proposal` is a tagged variant over
`Add(KeyPackage)`, `Update(LeafNode)`, `Remove(leaf_index)`,
`PreSharedKey(PskId)`, `ReInit`, `ExternalInit(kem_output)` and
`GroupContextExtensions(extensions)` (spec §3); the enum itself lives in
`messages/proposals.rs`, outside the provided sources. -/
inductive Proposal where
  | Add (key_package : KeyPackage)
  | Update (leaf_node : LeafNode)
  | Remove (removed : Nat)
  | PreSharedKey (psk_id : Nat)
  | ReInit
  | ExternalInit (kem_output : Bytes)
  | GroupContextExtensions (extensions : Extensions)
deriving DecidableEq, Repr

/-- The tag of a proposal, one value per variant. -/
inductive ProposalType where
  | Add | Update | Remove | Presharedkey | Reinit | ExternalInit
  | GroupContextExtensions
deriving DecidableEq, Repr

/-- The tag carried by a proposal. -/
def Proposal.proposal_type : Proposal → ProposalType
  | .Add _ => .Add
  | .Update _ => .Update
  | .Remove _ => .Remove
  | .PreSharedKey _ => .Presharedkey
  | .ReInit => .Reinit
  | .ExternalInit _ => .ExternalInit
  | .GroupContextExtensions _ => .GroupContextExtensions

/-- Modelled from the spec: `Proposal::is_type` compares the proposal's tag
with the given `ProposalType` (dispatch is by tag match, spec §9). -/
def Proposal.is_type (p : Proposal) (t : ProposalType) : Bool :=
  p.proposal_type = t

/-! ## TreeSync -/

/-- The leftmost index at which the list of leaf slots is blank (`none`),
or the length of the list when every slot is populated. -/
def leftmostFree : List (Option LeafNode) → Nat
  | [] => 0
  | none :: _ => 0
  | some _ :: rest => leftmostFree rest + 1

/-- The ratchet tree, reduced to its observable surface: the sequence of
leaf slots (blank or populated) and its cached tree hash.  Parent nodes and
the internal hashing are outside the provided sources; the tree hash is
carried as data. -/
structure TreeSync where
  leaves : List (Option LeafNode)
  tree_hash : Bytes
deriving DecidableEq, Repr

/-- Modelled from the spec: `TreeSync::free_leaf_index` returns the leftmost
blank leaf index (spec §4.A). -/
def TreeSync.free_leaf_index (t : TreeSync) : Nat :=
  leftmostFree t.leaves

/-- Modelled from the spec: `TreeSync::leaf(index)` returns the leaf at
`index`, `none` when the slot is blank or the index is outside the tree. -/
def TreeSync.leaf (t : TreeSync) (i : Nat) : Option LeafNode :=
  (t.leaves.get? i).join

/-- Modelled from the spec: `TreeSync::merge_diff` atomically replaces the
tree's contents with the staged tree delta (spec §4.D step 5); the delta is
modelled as the full post-merge tree. -/
def TreeSync.merge_diff (_t : TreeSync) (staged : TreeSync) : TreeSync :=
  staged

/-! ## GroupContext and PublicGroup -/

/-- `GroupContext`: the per-epoch bound state tuple (spec §3). -/
structure GroupContext where
  protocol_version : ProtocolVersion
  ciphersuite : Ciphersuite
  group_id : Bytes
  epoch : Nat
  tree_hash : Bytes
  confirmed_transcript_hash : Bytes
  extensions : Extensions
deriving DecidableEq, Repr

/-- Modelled from the spec: `GroupContext::new` builds the tuple from its
arguments; the protocol version of a freshly constructed context is MLS 1.0
(the only supported version). -/
def GroupContext.new (ciphersuite : Ciphersuite) (group_id : Bytes)
    (epoch : Nat) (tree_hash : Bytes) (confirmed_transcript_hash : Bytes)
    (extensions : Extensions) : GroupContext :=
  { protocol_version := ProtocolVersion.Mls10
    ciphersuite, group_id, epoch, tree_hash, confirmed_transcript_hash
    extensions }

/-- `PublicGroup` (`public_group/mod.rs`): one `TreeSync`, one
`GroupContext`, the interim transcript hash and the most recent
confirmation tag. -/
structure PublicGroup where
  treesync : TreeSync
  group_context : GroupContext
  interim_transcript_hash : Bytes
  confirmation_tag : ConfirmationTag
deriving DecidableEq, Repr

/-- The observable state of a public group named by the spec's
rejection-leaves-state-unchanged property: group context, tree hash,
interim transcript hash and confirmation tag. -/
def PublicGroup.observables (g : PublicGroup) :
    GroupContext × Bytes × Bytes × ConfirmationTag :=
  (g.group_context, g.treesync.tree_hash, g.interim_transcript_hash,
    g.confirmation_tag)

/-- The staged public-group diff: staged tree delta, new group context, new
interim transcript hash, new confirmation tag (`public_group/diff.rs`,
described in spec §3). -/
structure StagedPublicGroupDiff where
  staged_diff : TreeSync
  group_context : GroupContext
  interim_transcript_hash : Bytes
  confirmation_tag : ConfirmationTag
deriving DecidableEq, Repr

/-- `PublicGroup::merge_diff` (`public_group/mod.rs`, lines 201–206):
replace the tree via `TreeSync::merge_diff` and overwrite the group
context, interim transcript hash and confirmation tag with the staged
values. -/
def PublicGroup.merge_diff (g : PublicGroup) (diff : StagedPublicGroupDiff) :
    PublicGroup :=
  { treesync := g.treesync.merge_diff diff.staged_diff
    group_context := diff.group_context
    interim_transcript_hash := diff.interim_transcript_hash
    confirmation_tag := diff.confirmation_tag }

/-- The search predicate of `free_leaf_index`'s `find`: a present proposal
whose type is Remove. -/
def isInlineRemove : Option Proposal → Bool
  | some p => p.is_type ProposalType.Remove
  | none => false

/-- `PublicGroup::free_leaf_index` (`public_group/mod.rs`, lines 164–192):
take the leftmost free leaf of the tree; find the first inline proposal of
type Remove; if present and its removed index is below the free index,
return the removed index, otherwise the free index.  The non-Remove branch
of the inner match is the source's `LibraryError("missing key package")`. -/
def PublicGroup.free_leaf_index (g : PublicGroup)
    (inline_proposals : List (Option Proposal)) :
    Except LibraryError Nat :=
  let free_leaf_index := g.treesync.free_leaf_index
  let remove_proposal_option :=
    (inline_proposals.find? isInlineRemove).join
  match remove_proposal_option with
  | some remove_proposal =>
    match remove_proposal with
    | Proposal.Remove removed_index =>
      if removed_index < free_leaf_index then
        Except.ok removed_index
      else
        Except.ok free_leaf_index
    | _ => Except.error (LibraryError.custom "missing key package")
  | none => Except.ok free_leaf_index

/-! ## External-join bootstrapper (`from_external`) -/

/-- A wire-level ratchet-tree node, opaque to the embedded checks: only
`TreeSync::from_nodes` (an injected capability here) interprets it. -/
abbrev Node := Nat

/-- `CreationFromExternalError` (`public_group/errors.rs`): the typed
failures of `PublicGroup::from_external`. -/
inductive CreationFromExternalError where
  | UnknownSender
  | InvalidGroupInfoSignature
  | TreeHashMismatch
  | UnsupportedMlsVersion
  | MalformedTree
deriving DecidableEq, Repr

/-- The payload of a `GroupInfo`: group context, extensions, confirmation
tag and the signer's leaf index. -/
structure GroupInfoPayload where
  group_context : GroupContext
  extensions : Extensions
  confirmation_tag : ConfirmationTag
  signer : Nat
deriving DecidableEq, Repr

/-- A `VerifiableGroupInfo`: a `GroupInfo` payload together with the
signature over it, not yet verified. -/
structure VerifiableGroupInfo where
  payload : GroupInfoPayload
  signature : Bytes
deriving DecidableEq, Repr

/-- The ciphersuite advertised by an unverified group info. -/
def VerifiableGroupInfo.ciphersuite (v : VerifiableGroupInfo) : Ciphersuite :=
  v.payload.group_context.ciphersuite

/-- The signer leaf index advertised by an unverified group info. -/
def VerifiableGroupInfo.signer (v : VerifiableGroupInfo) : Nat :=
  v.payload.signer

/-- The injected cryptographic capabilities consumed by `from_external`:
hashing, signature verification, and the canonical serializers whose bytes
enter signatures and hashes (spec §6). -/
structure Backend where
  hash : Nat → Bytes → Bytes
  verify : Nat → Bytes → Bytes → Bytes → Bool
  serializeGroupInfoTbs : GroupInfoPayload → Bytes
  serializeITHInput : ConfirmationTag → Bytes

/-- `VerifiableGroupInfo::verify`: check the signature over the serialized
payload against the enriched signer key (algorithm plus key bytes); on
success release the verified `GroupInfoPayload`. -/
def VerifiableGroupInfo.verify (v : VerifiableGroupInfo) (backend : Backend)
    (algorithm : Nat) (key : Bytes) : Except Unit GroupInfoPayload :=
  if backend.verify algorithm key (backend.serializeGroupInfoTbs v.payload)
      v.signature then
    .ok v.payload
  else
    .error ()

/-- `PublicGroup::from_external` (`public_group/mod.rs`, lines 80–156):
build the tree from the nodes, locate the signer's leaf (else
`UnknownSender`), verify the group info signature (else
`InvalidGroupInfoSignature`), compare tree hashes (else `TreeHashMismatch`),
require MLS 1.0 (else `UnsupportedMlsVersion`), then rebuild the group
context and the interim transcript hash (empty at epoch 0, otherwise the
hash of the confirmed transcript hash concatenated with the serialized
interim-transcript-hash input of the group info's confirmation tag).
`TreeSync::from_nodes` is outside the provided sources and is injected as
`fromNodes`. -/
def PublicGroup.from_external (backend : Backend)
    (fromNodes : Ciphersuite → List (Option Node) →
      Except CreationFromExternalError TreeSync)
    (nodes : List (Option Node))
    (verifiable_group_info : VerifiableGroupInfo) :
    Except CreationFromExternalError (PublicGroup × Extensions) :=
  let ciphersuite := verifiable_group_info.ciphersuite
  match fromNodes ciphersuite nodes with
  | .error e => .error e
  | .ok treesync =>
    match treesync.leaf verifiable_group_info.signer with
    | none => .error CreationFromExternalError.UnknownSender
    | some signer_leaf =>
      let signer_signature_key := signer_leaf.signature_key
      match verifiable_group_info.verify backend
          ciphersuite.signature_algorithm signer_signature_key with
      | .error _ => .error CreationFromExternalError.InvalidGroupInfoSignature
      | .ok group_info =>
        if treesync.tree_hash ≠ group_info.group_context.tree_hash then
          .error CreationFromExternalError.TreeHashMismatch
        else if group_info.group_context.protocol_version ≠
            ProtocolVersion.Mls10 then
          .error CreationFromExternalError.UnsupportedMlsVersion
        else
          let group_context := GroupContext.new ciphersuite
            group_info.group_context.group_id
            group_info.group_context.epoch
            treesync.tree_hash
            group_info.group_context.confirmed_transcript_hash
            group_info.group_context.extensions
          let interim_transcript_hash :=
            if group_context.epoch = 0 then []
            else
              backend.hash ciphersuite.hash_algorithm
                (group_info.group_context.confirmed_transcript_hash ++
                  backend.serializeITHInput group_info.confirmation_tag)
          .ok ({ treesync := treesync, group_context := group_context,
                 interim_transcript_hash := interim_transcript_hash,
                 confirmation_tag := group_info.confirmation_tag },
               group_info.extensions)

/-! ## Commit pipeline (spec §4.C–§4.D)

The commit validation and staging code (`CoreGroup`/`PublicGroup` staging,
`stage_commit`) is not among the provided sources — only its tests are.  The
pipeline below is modelled from the spec: framing and membership checks
(step 1), proposal resolution against the store (step 2), the ValSem
semantic checks (step 3), proposal application and transcript hashing
(step 4), and the atomic merge (step 5).  Cryptographic checks over wire
encodings (signatures, membership MACs, path decryption) are injected as
capabilities of a `StageEnv`. -/

abbrev ProposalRef := Nat

/-- `QueuedProposal`: a proposal plus its sender and reference hash, as held
by the per-group proposal store (spec §3). -/
structure QueuedProposal where
  proposal : Proposal
  sender : Nat
  ref : ProposalRef
deriving DecidableEq, Repr

/-- `ProposalOrRef`: a commit carries each proposal either inline or as a
reference into the pending store (spec §3). -/
inductive ProposalOrRef where
  | inline (p : Proposal)
  | reference (r : ProposalRef)
deriving DecidableEq, Repr

/-- An update path, opaque to the modelled checks: one entry per direct-path
node.  Its cryptographic validation is injected via `StageEnv.checkPath`. -/
abbrev UpdatePath := List Bytes

/-- A commit message after framing: its proposal list, optional update path,
sender leaf index and confirmation tag. -/
structure Commit where
  proposals : List ProposalOrRef
  path : Option UpdatePath
  sender : Nat
  confirmation_tag : ConfirmationTag
deriving DecidableEq, Repr

/-- `Commit::has_path`. -/
def Commit.has_path (c : Commit) : Bool :=
  c.path.isSome

/-- `StageCommitError`: the typed failures of commit processing (spec §7).
The three `UpdatePathError` variants are flattened into this enum. -/
inductive StageCommitError where
  | AttemptedSelfRemoval
  | RequiredPathNotFound
  | PathLengthMismatch
  | UnableToDecrypt
  | PathMismatch
  | ConfirmationTagMismatch
  | ProposalNotFound
  | InvalidSignature
  | MembershipTagMismatch
deriving DecidableEq, Repr

/-- `ProcessMessageError`: commit-stage failures surface to the caller
wrapped as `InvalidCommit`. -/
inductive ProcessMessageError where
  | InvalidCommit (e : StageCommitError)
deriving DecidableEq, Repr

/-- The injected capabilities of the staging pipeline: signature and
membership verification over the framed commit, the cryptographic path
checks (ValSem202–204), tree hashing, transcript hashing, the confirmation
MAC and its key, and the canonical serializers. -/
structure StageEnv where
  verifySig : Commit → Bool
  verifyMembership : Commit → Bool
  checkPath : PublicGroup → Nat → UpdatePath → Option StageCommitError
  treeHash : List (Option LeafNode) → Bytes
  hash : Bytes → Bytes
  mac : Bytes → Bytes → Bytes
  confirmation_key : Bytes
  serializeContent : Commit → Bytes
  serializeITHInput : ConfirmationTag → Bytes

/-- Modelled from the spec (step 2): resolve each `ProposalOrRef` of a
commit — inline proposals are taken as sent by the committer, references
are looked up in the store, and a missing reference is
`ProposalNotFound`. -/
def resolve (store : List QueuedProposal) (sender : Nat) :
    List ProposalOrRef → Except StageCommitError (List (Proposal × Nat))
  | [] => .ok []
  | ProposalOrRef.inline p :: rest =>
    match resolve store sender rest with
    | .ok ps => .ok ((p, sender) :: ps)
    | .error e => .error e
  | ProposalOrRef.reference r :: rest =>
    match store.find? (fun q => q.ref == r) with
    | some q =>
      match resolve store sender rest with
      | .ok ps => .ok ((q.proposal, q.sender) :: ps)
      | .error e => .error e
    | none => .error StageCommitError.ProposalNotFound

/-- Modelled from the spec (ValSem200): does the resolved proposal list
contain a Remove of the committer's own leaf index? -/
def containsSelfRemove (ps : List (Proposal × Nat)) (sender : Nat) : Bool :=
  ps.any fun p =>
    match p.1 with
    | Proposal.Remove i => i = sender
    | _ => false

/-- Modelled from the spec (§4.C): the proposal kinds that force an update
path — Update, Remove, ExternalInit and GroupContextExtensions. -/
def Proposal.is_path_required : Proposal → Bool
  | .Update _ => true
  | .Remove _ => true
  | .ExternalInit _ => true
  | .GroupContextExtensions _ => true
  | _ => false

/-- Modelled from the spec (§4.C): a commit over a proposal set requires a
path exactly when some proposal's kind forces one (inclusive OR). -/
def pathRequired (ps : List (Proposal × Nat)) : Bool :=
  ps.any fun p => p.1.is_path_required

/-- Modelled from the spec (§4.D step 4.1): an Add places the key package's
leaf node at the leftmost free leaf, extending the tree when full. -/
def placeAdd (leaves : List (Option LeafNode)) (ln : LeafNode) :
    List (Option LeafNode) :=
  let i := leftmostFree leaves
  if i < leaves.length then leaves.set i (some ln) else leaves ++ [some ln]

/-- Modelled from the spec (§4.D step 4.1): apply the resolved proposals to
the leaf slots in the fixed order Updates (replace the proposing member's
leaf), then Removes (blank the removed leaf), then Adds. -/
def applyProposals (leaves : List (Option LeafNode))
    (ps : List (Proposal × Nat)) : List (Option LeafNode) :=
  let afterUpdates := ps.foldl (fun acc p =>
    match p with
    | (Proposal.Update ln, s) => acc.set s (some ln)
    | _ => acc) leaves
  let afterRemoves := ps.foldl (fun acc p =>
    match p with
    | (Proposal.Remove i, _) => acc.set i none
    | _ => acc) afterUpdates
  ps.foldl (fun acc p =>
    match p with
    | (Proposal.Add kp, _) => placeAdd acc kp.leaf_node
    | _ => acc) afterRemoves

/-- Modelled from the spec (§4.D step 4.1): a GroupContextExtensions
proposal replaces the context's extensions. -/
def applyGroupContextExtensions (exts : Extensions)
    (ps : List (Proposal × Nat)) : Extensions :=
  ps.foldl (fun acc p =>
    match p.1 with
    | Proposal.GroupContextExtensions e => e
    | _ => acc) exts

/-- Modelled from the spec (§4.D steps 4.1–4.3): the staged diff produced by
a commit — new leaves and tree hash, new confirmed transcript hash from the
previous interim hash and the serialized commit content, new interim hash
from the new confirmed hash and the serialized confirmation tag, and the
group context with the epoch incremented. -/
def buildStaged (env : StageEnv) (g : PublicGroup) (c : Commit)
    (proposals : List (Proposal × Nat)) : StagedPublicGroupDiff :=
  let newLeaves := applyProposals g.treesync.leaves proposals
  let newTreeHash := env.treeHash newLeaves
  let newConfirmed :=
    env.hash (g.interim_transcript_hash ++ env.serializeContent c)
  let newInterim :=
    env.hash (newConfirmed ++ env.serializeITHInput c.confirmation_tag)
  { staged_diff := { leaves := newLeaves, tree_hash := newTreeHash }
    group_context := { g.group_context with
      epoch := g.group_context.epoch + 1
      tree_hash := newTreeHash
      confirmed_transcript_hash := newConfirmed
      extensions :=
        applyGroupContextExtensions g.group_context.extensions proposals }
    interim_transcript_hash := newInterim
    confirmation_tag := c.confirmation_tag }

/-- Modelled from the spec (§4.D steps 1–4): validate and stage a commit
against a public group and its proposal store.  The checks run in order:
signature, membership MAC, proposal resolution, ValSem200 (no
self-remove), ValSem201 (path present when required), ValSem202–204 (the
injected path checks, when a path is present), then staging and ValSem205
(the recomputed confirmation MAC over the new confirmed transcript hash
must equal the commit's tag).  The group itself is never modified. -/
def stage (env : StageEnv) (store : List QueuedProposal) (g : PublicGroup)
    (c : Commit) : Except StageCommitError StagedPublicGroupDiff :=
  if env.verifySig c = false then
    .error StageCommitError.InvalidSignature
  else if env.verifyMembership c = false then
    .error StageCommitError.MembershipTagMismatch
  else
    match resolve store c.sender c.proposals with
    | .error e => .error e
    | .ok proposals =>
      if containsSelfRemove proposals c.sender then
        .error StageCommitError.AttemptedSelfRemoval
      else if pathRequired proposals && c.path.isNone then
        .error StageCommitError.RequiredPathNotFound
      else
        match (match c.path with
          | some path => env.checkPath g c.sender path
          | none => none) with
        | some e => .error e
        | none =>
          if c.confirmation_tag ≠
              env.mac env.confirmation_key
                (buildStaged env g c
                  proposals).group_context.confirmed_transcript_hash then
            .error StageCommitError.ConfirmationTagMismatch
          else
            .ok (buildStaged env g c proposals)

/-- The proposal references carried by a commit. -/
def Commit.refs (c : Commit) : List ProposalRef :=
  c.proposals.filterMap fun pr =>
    match pr with
    | ProposalOrRef.reference r => some r
    | ProposalOrRef.inline _ => none

/-- Modelled from the spec (§4.C, §8): after a commit is merged, the
proposals it covered leave the store and the complement remains for future
epochs. -/
def storeAfterMerge (store : List QueuedProposal) (c : Commit) :
    List QueuedProposal :=
  store.filter fun q => !(c.refs.contains q.ref)

/-- Modelled from the spec (§4.D): process a commit at a receiver — stage
it, and on success merge the staged diff into the group and retire the
covered proposals from the store; on any failure the staged diff is dropped
and group and store are returned untouched, with the error wrapped as
`InvalidCommit`. -/
def processAndMerge (env : StageEnv) (store : List QueuedProposal)
    (g : PublicGroup) (c : Commit) :
    (PublicGroup × List QueuedProposal) ×
      Except ProcessMessageError StagedPublicGroupDiff :=
  match stage env store g c with
  | .error e => ((g, store), .error (ProcessMessageError.InvalidCommit e))
  | .ok staged =>
    ((g.merge_diff staged, storeAfterMerge store c), .ok staged)

/-- Modelled from the spec (§4.C, §8 scenario 2): a committer building a
commit over a proposal set includes an update path exactly when
`force_self_update` is set or the classifier requires one; the path content
itself is cryptographic and outside this model. -/
def createCommit (ps : List Proposal) (sender : Nat)
    (tag : ConfirmationTag) (force_self_update : Bool) : Commit :=
  { proposals := ps.map ProposalOrRef.inline
    path :=
      if force_self_update || ps.any Proposal.is_path_required then
        some []
      else
        none
    sender := sender
    confirmation_tag := tag }

/-! ## The PublicGroup API surface (for the frame-effect claim) -/

/-- The method surface of `PublicGroup` in the provided source
(`public_group/mod.rs`): `merge_diff` is the only method with a `&mut self`
receiver; `empty_diff`, `free_leaf_index`, `derive_path_secrets`, `members`
and the getters all borrow the group by shared reference. -/
inductive PublicGroupOp where
  | mergeDiff (d : StagedPublicGroupDiff)
  | emptyDiff
  | freeLeafIndex (ps : List (Option Proposal))
  | derivePathSecrets (args : Bytes)
  | members
  | getter

/-- The state transition of one `PublicGroup` method call: `merge_diff`
performs its four-field replacement; every shared-borrow method leaves the
group exactly as it was (a `&self` receiver cannot mutate). -/
def PublicGroupOp.apply (g : PublicGroup) : PublicGroupOp → PublicGroup
  | .mergeDiff d => g.merge_diff d
  | .emptyDiff => g
  | .freeLeafIndex _ => g
  | .derivePathSecrets _ => g
  | .members => g
  | .getter => g

/-! ## Theorems -/

/-- C9: `SignatureScheme::try_from` succeeds exactly on the four IANA codes
0x0403, 0x0603, 0x0807, 0x0808, mapping them to the four schemes in order,
and converting any scheme to its wire code and back yields the scheme. -/
theorem signatureScheme_tryFrom_spec :
    (∀ v : Nat,
      ((∃ s, SignatureScheme.tryFrom v = Except.ok s) ↔
        v = 0x0403 ∨ v = 0x0603 ∨ v = 0x0807 ∨ v = 0x0808)) ∧
    SignatureScheme.tryFrom 0x0403 =
      Except.ok SignatureScheme.ECDSA_SECP256R1_SHA256 ∧
    SignatureScheme.tryFrom 0x0603 =
      Except.ok SignatureScheme.ECDSA_SECP521R1_SHA512 ∧
    SignatureScheme.tryFrom 0x0807 = Except.ok SignatureScheme.ED25519 ∧
    SignatureScheme.tryFrom 0x0808 = Except.ok SignatureScheme.ED448 ∧
    ∀ s : SignatureScheme,
      SignatureScheme.tryFrom s.toU16 = Except.ok s := by
  refine ⟨?_, rfl, rfl, rfl, rfl, ?_⟩
  · intro v
    unfold SignatureScheme.tryFrom
    split
    · simp_all
    · split
      · simp_all
      · split
        · simp_all
        · split
          · simp_all
          · simp_all
  · intro s
    cases s <;> rfl

set_option linter.unnecessarySeqFocus false in
/-- Helper: `free_leaf_index` as an explicit function of the first inline
proposal of type Remove. -/
theorem free_leaf_index_characterization (g : PublicGroup)
    (props : List (Option Proposal)) :
    g.free_leaf_index props =
      Except.ok
        (match (props.find? isInlineRemove).join with
          | some (Proposal.Remove r) =>
            if r < g.treesync.free_leaf_index then r
            else g.treesync.free_leaf_index
          | _ => g.treesync.free_leaf_index) := by
  unfold PublicGroup.free_leaf_index
  cases hfind : props.find? isInlineRemove with
  | none => simp [Option.join]
  | some o =>
    have hpred : isInlineRemove o = true := List.find?_some hfind
    cases o with
    | none => simp [isInlineRemove] at hpred
    | some p =>
      cases p <;>
          simp_all [isInlineRemove, Proposal.is_type,
            Proposal.proposal_type, Option.join] <;>
        split <;> rfl

/-- The concrete leaf node used by the concrete examples below. -/
def exampleLeaf : LeafNode :=
  { signature_key := [1], credential := [2] }

/-- A concrete public group with three populated leaves, whose leftmost
free leaf index is therefore 3. -/
def exampleGroup : PublicGroup :=
  { treesync :=
      { leaves := [some exampleLeaf, some exampleLeaf, some exampleLeaf]
        tree_hash := [9] }
    group_context := GroupContext.new ⟨1, 2⟩ [3] 0 [9] [] []
    interim_transcript_hash := []
    confirmation_tag := [4] }

/-- A concrete inline proposal list whose first Remove targets leaf 5
(not below the free index 3) while a later Remove targets leaf 1 (below
the free index). -/
def exampleProposals : List (Option Proposal) :=
  [some (Proposal.Remove 5), some (Proposal.Remove 1)]

/-- C5 counterexample: `exampleProposals` contains a Remove of leaf 1,
which is below the group's leftmost free leaf index 3, yet
`free_leaf_index` returns 3 — the leftmost free index, not the removed
index of any Remove proposal in the list.  The function only consults the
first Remove-typed proposal. -/
theorem free_leaf_index_ignores_later_removes :
    some (Proposal.Remove 1) ∈ exampleProposals ∧
    1 < exampleGroup.treesync.free_leaf_index ∧
    exampleGroup.free_leaf_index exampleProposals = Except.ok 3 ∧
    ∀ p ∈ exampleProposals, p ≠ some (Proposal.Remove 3) := by
  decide

/-- C5 (amended): `free_leaf_index` consults only the first proposal of
type Remove in the list: if the first Remove's removed index is below the
tree's leftmost free leaf index it returns that removed index, and
otherwise — including when no Remove proposal is present — it returns the
leftmost free leaf index. -/
theorem free_leaf_index_first_remove (g : PublicGroup)
    (props : List (Option Proposal)) :
    g.free_leaf_index props =
      Except.ok
        (match (props.find? isInlineRemove).join with
          | some (Proposal.Remove r) =>
            if r < g.treesync.free_leaf_index then r
            else g.treesync.free_leaf_index
          | _ => g.treesync.free_leaf_index) :=
  free_leaf_index_characterization g props

/-- C10: `free_leaf_index` is total — for every group and every list of
optional inline proposals it returns `ok`; the internal
`LibraryError("missing key package")` branch is unreachable because the
preceding search only yields proposals of type Remove, which are always the
`Remove` variant. -/
theorem free_leaf_index_never_fails (g : PublicGroup)
    (props : List (Option Proposal)) :
    ∃ i, g.free_leaf_index props = Except.ok i :=
  ⟨_, free_leaf_index_characterization g props⟩

/-- C4: `merge_diff` replaces exactly the four fields of a `PublicGroup`
with the staged diff's values — the tree via `TreeSync::merge_diff`, the
group context, the interim transcript hash and the confirmation tag — and
among the group's methods only `merge_diff` can change the group: any call
that changed the group was a `merge_diff`, and every non-`merge_diff` call
leaves every field unchanged (so a staged diff that is dropped without
merging changes nothing). -/
theorem merge_diff_frame (g : PublicGroup) (d : StagedPublicGroupDiff) :
    ((g.merge_diff d).treesync = g.treesync.merge_diff d.staged_diff ∧
     (g.merge_diff d).group_context = d.group_context ∧
     (g.merge_diff d).interim_transcript_hash =
       d.interim_transcript_hash ∧
     (g.merge_diff d).confirmation_tag = d.confirmation_tag) ∧
    (∀ op : PublicGroupOp, PublicGroupOp.apply g op ≠ g →
      ∃ d', op = PublicGroupOp.mergeDiff d') ∧
    (∀ op : PublicGroupOp,
      (∀ d', op ≠ PublicGroupOp.mergeDiff d') →
      PublicGroupOp.apply g op = g) := by
  refine ⟨⟨rfl, rfl, rfl, rfl⟩, ?_, ?_⟩
  · intro op h
    cases op with
    | mergeDiff d' => exact ⟨d', rfl⟩
    | emptyDiff => exact absurd rfl h
    | freeLeafIndex ps => exact absurd rfl h
    | derivePathSecrets args => exact absurd rfl h
    | members => exact absurd rfl h
    | getter => exact absurd rfl h
  · intro op h
    cases op with
    | mergeDiff d' => exact absurd rfl (h d')
    | emptyDiff => rfl
    | freeLeafIndex ps => rfl
    | derivePathSecrets args => rfl
    | members => rfl
    | getter => rfl

/-- C4 witness: the field replacement evaluated at a concrete group and a
concrete staged diff. -/
theorem merge_diff_frame_witness :
    (PublicGroup.merge_diff exampleGroup
        { staged_diff := { leaves := [none], tree_hash := [7] }
          group_context := GroupContext.new ⟨1, 2⟩ [3] 1 [7] [6] []
          interim_transcript_hash := [5]
          confirmation_tag := [8] }).confirmation_tag = [8] :=
  (merge_diff_frame exampleGroup
    { staged_diff := { leaves := [none], tree_hash := [7] }
      group_context := GroupContext.new ⟨1, 2⟩ [3] 1 [7] [6] []
      interim_transcript_hash := [5]
      confirmation_tag := [8] }).1.2.2.2

/-- Helper: resolution distributes over appending one inline proposal at
the end of the proposal list. -/
theorem resolve_append_inline (store : List QueuedProposal) (sender : Nat)
    (l : List ProposalOrRef) (p : Proposal) :
    resolve store sender (l ++ [ProposalOrRef.inline p]) =
      match resolve store sender l with
      | .ok ps => .ok (ps ++ [(p, sender)])
      | .error e => .error e := by
  induction l with
  | nil => rfl
  | cons hd tl ih =>
    cases hd with
    | inline q =>
      have lhs : resolve store sender
          ((ProposalOrRef.inline q :: tl) ++ [ProposalOrRef.inline p]) =
          match resolve store sender (tl ++ [ProposalOrRef.inline p]) with
          | .ok ps => Except.ok ((q, sender) :: ps)
          | .error e => .error e := rfl
      have rhs : resolve store sender (ProposalOrRef.inline q :: tl) =
          match resolve store sender tl with
          | .ok ps => Except.ok ((q, sender) :: ps)
          | .error e => .error e := rfl
      rw [lhs, rhs, ih]
      cases resolve store sender tl <;> rfl
    | reference r =>
      have lhs : resolve store sender
          ((ProposalOrRef.reference r :: tl) ++ [ProposalOrRef.inline p]) =
          match store.find? (fun x => x.ref == r) with
          | some x =>
            match resolve store sender (tl ++ [ProposalOrRef.inline p]) with
            | .ok ps => Except.ok ((x.proposal, x.sender) :: ps)
            | .error e => .error e
          | none => .error StageCommitError.ProposalNotFound := rfl
      have rhs : resolve store sender (ProposalOrRef.reference r :: tl) =
          match store.find? (fun x => x.ref == r) with
          | some x =>
            match resolve store sender tl with
            | .ok ps => Except.ok ((x.proposal, x.sender) :: ps)
            | .error e => .error e
          | none => .error StageCommitError.ProposalNotFound := rfl
      rw [lhs, rhs, ih]
      cases store.find? (fun x => x.ref == r) with
      | none => rfl
      | some x => cases resolve store sender tl <;> rfl

/-- Helper: inversion of a successful staging run — every check passed and
the staged diff is the one built from the resolved proposals. -/
theorem stage_ok_inv {env : StageEnv} {store : List QueuedProposal}
    {g : PublicGroup} {c : Commit} {st : StagedPublicGroupDiff}
    (h : stage env store g c = .ok st) :
    env.verifySig c = true ∧ env.verifyMembership c = true ∧
    ∃ ps, resolve store c.sender c.proposals = .ok ps ∧
      containsSelfRemove ps c.sender = false ∧
      (pathRequired ps && c.path.isNone) = false ∧
      (match c.path with
        | some path => env.checkPath g c.sender path
        | none => none) = none ∧
      c.confirmation_tag =
        env.mac env.confirmation_key
          (buildStaged env g c ps).group_context.confirmed_transcript_hash ∧
      st = buildStaged env g c ps := by
  unfold stage at h
  by_cases h1 : env.verifySig c = false
  · rw [if_pos h1] at h; simp at h
  · rw [if_neg h1] at h
    by_cases h2 : env.verifyMembership c = false
    · rw [if_pos h2] at h; simp at h
    · rw [if_neg h2] at h
      cases hres : resolve store c.sender c.proposals with
      | error e => rw [hres] at h; simp at h
      | ok ps =>
        rw [hres] at h
        dsimp only at h
        by_cases h3 : containsSelfRemove ps c.sender = true
        · rw [if_pos h3] at h; simp at h
        · rw [if_neg h3] at h
          by_cases h4 : (pathRequired ps && c.path.isNone) = true
          · rw [if_pos h4] at h; simp at h
          · rw [if_neg h4] at h
            cases hcp : (match c.path with
              | some path => env.checkPath g c.sender path
              | none => none) with
            | some e => rw [hcp] at h; simp at h
            | none =>
              rw [hcp] at h
              dsimp only at h
              by_cases h5 : c.confirmation_tag ≠
                  env.mac env.confirmation_key
                    (buildStaged env g c
                      ps).group_context.confirmed_transcript_hash
              · rw [if_pos h5] at h; simp at h
              · rw [if_neg h5] at h
                have hsig : env.verifySig c = true := by
                  cases hb : env.verifySig c
                  · exact absurd hb h1
                  · rfl
                have hmem : env.verifyMembership c = true := by
                  cases hb : env.verifyMembership c
                  · exact absurd hb h2
                  · rfl
                have hsr : containsSelfRemove ps c.sender = false := by
                  cases hb : containsSelfRemove ps c.sender
                  · rfl
                  · exact absurd hb h3
                have hpr : (pathRequired ps && c.path.isNone) = false := by
                  cases hb : (pathRequired ps && c.path.isNone)
                  · rfl
                  · exact absurd hb h4
                exact ⟨hsig, hmem, ps, rfl, hsr, hpr, rfl,
                  not_not.mp h5, (Except.ok.inj h).symm⟩

/-- C1: every commit that fails a validation check during processing leaves
the public group's observable state — group context, tree hash, interim
transcript hash, confirmation tag — and the proposal store unchanged, the
error surfaces as `InvalidCommit`, and the same group afterwards still
processes the original untampered commit with the same successful
result. -/
theorem rejected_commit_preserves_state (env : StageEnv)
    (store : List QueuedProposal) (g : PublicGroup) (c c₀ : Commit)
    (e : StageCommitError) (st : StagedPublicGroupDiff)
    (hfail : stage env store g c = .error e)
    (hok : stage env store g c₀ = .ok st) :
    (processAndMerge env store g c).1.1.observables = g.observables ∧
    (processAndMerge env store g c).1.2 = store ∧
    (processAndMerge env store g c).2 =
      .error (ProcessMessageError.InvalidCommit e) ∧
    stage env (processAndMerge env store g c).1.2
      (processAndMerge env store g c).1.1 c₀ = .ok st := by
  unfold processAndMerge
  rw [hfail]
  exact ⟨rfl, rfl, rfl, hok⟩

/-- A concrete staging environment for the witnesses: hashing, MACs and
serializers are simple total functions, signature and membership checks
accept, and the injected path checks pass. -/
def exampleEnv : StageEnv :=
  { verifySig := fun _ => true
    verifyMembership := fun _ => true
    checkPath := fun _ _ _ => none
    treeHash := fun leaves => [leaves.length]
    hash := fun b => [b.length]
    mac := fun k b => k ++ b
    confirmation_key := [0]
    serializeContent := fun c => [c.proposals.length]
    serializeITHInput := fun t => t }

/-- A concrete commit that stages successfully against `exampleGroup` under
`exampleEnv`: no proposals, no path, and the matching confirmation tag. -/
def exampleGoodCommit : Commit :=
  { proposals := [], path := none, sender := 0, confirmation_tag := [0, 1] }

/-- The same commit with its confirmation tag corrupted: staging fails with
`ConfirmationTagMismatch`. -/
def exampleBadTagCommit : Commit :=
  { proposals := [], path := none, sender := 0, confirmation_tag := [9] }

/-- C1 witness: processing the corrupted-tag commit fails and leaves the
concrete group and store untouched, after which the original commit still
stages successfully. -/
theorem rejected_commit_preserves_state_witness :
    (processAndMerge exampleEnv [] exampleGroup
        exampleBadTagCommit).1.1.observables = exampleGroup.observables ∧
    (processAndMerge exampleEnv [] exampleGroup exampleBadTagCommit).1.2 =
      [] ∧
    (processAndMerge exampleEnv [] exampleGroup exampleBadTagCommit).2 =
      .error (ProcessMessageError.InvalidCommit
        StageCommitError.ConfirmationTagMismatch) ∧
    stage exampleEnv
      (processAndMerge exampleEnv [] exampleGroup exampleBadTagCommit).1.2
      (processAndMerge exampleEnv [] exampleGroup exampleBadTagCommit).1.1
      exampleGoodCommit =
      .ok (buildStaged exampleEnv exampleGroup exampleGoodCommit []) :=
  rejected_commit_preserves_state exampleEnv [] exampleGroup
    exampleBadTagCommit exampleGoodCommit
    StageCommitError.ConfirmationTagMismatch
    (buildStaged exampleEnv exampleGroup exampleGoodCommit [])
    (by decide) (by decide)

/-- The tampering of the self-removal test: push an inline Remove of the
committer's own leaf onto an existing commit's proposal list. -/
def Commit.withInlineSelfRemove (c : Commit) : Commit :=
  { c with proposals :=
      c.proposals ++ [ProposalOrRef.inline (Proposal.Remove c.sender)] }

/-- C2: every commit whose resolved proposal list contains a Remove of the
sender's own leaf index (and which passes the preceding framing checks) is
rejected with `InvalidCommit(AttemptedSelfRemoval)`; in particular, pushing
an inline self-remove onto any successfully-staging commit and re-signing
makes staging fail that way, while the identical commit without that
proposal is accepted. -/
theorem self_remove_commit_rejected (env : StageEnv)
    (store : List QueuedProposal) (g : PublicGroup) (c : Commit)
    (st : StagedPublicGroupDiff)
    (hok : stage env store g c = .ok st)
    (hsig : env.verifySig c.withInlineSelfRemove = true)
    (hmem : env.verifyMembership c.withInlineSelfRemove = true) :
    (∀ (c' : Commit) (ps : List (Proposal × Nat)),
      env.verifySig c' = true →
      env.verifyMembership c' = true →
      resolve store c'.sender c'.proposals = .ok ps →
      containsSelfRemove ps c'.sender = true →
      (processAndMerge env store g c').2 =
        .error (ProcessMessageError.InvalidCommit
          StageCommitError.AttemptedSelfRemoval)) ∧
    (processAndMerge env store g c.withInlineSelfRemove).2 =
      .error (ProcessMessageError.InvalidCommit
        StageCommitError.AttemptedSelfRemoval) ∧
    (processAndMerge env store g c).2 = .ok st := by
  have hgen : ∀ (c' : Commit) (ps : List (Proposal × Nat)),
      env.verifySig c' = true →
      env.verifyMembership c' = true →
      resolve store c'.sender c'.proposals = .ok ps →
      containsSelfRemove ps c'.sender = true →
      (processAndMerge env store g c').2 =
        .error (ProcessMessageError.InvalidCommit
          StageCommitError.AttemptedSelfRemoval) := by
    intro c' ps hsig' hmem' hres' hself'
    have hstage' : stage env store g c' =
        .error StageCommitError.AttemptedSelfRemoval := by
      unfold stage
      rw [hsig', hmem', hres']
      simp [hself']
    unfold processAndMerge
    rw [hstage']
  refine ⟨hgen, ?_⟩
  obtain ⟨hs, hm, ps, hres, hsr, hpr, hcp, htag, hst⟩ := stage_ok_inv hok
  have hres' : resolve store c.withInlineSelfRemove.sender
      c.withInlineSelfRemove.proposals =
      .ok (ps ++ [(Proposal.Remove c.sender, c.sender)]) := by
    show resolve store c.sender
      (c.proposals ++ [ProposalOrRef.inline (Proposal.Remove c.sender)]) = _
    rw [resolve_append_inline, hres]
  have hself : containsSelfRemove
      (ps ++ [(Proposal.Remove c.sender, c.sender)])
      c.withInlineSelfRemove.sender = true := by
    simp [containsSelfRemove, Commit.withInlineSelfRemove]
  have hstage : stage env store g c.withInlineSelfRemove =
      .error StageCommitError.AttemptedSelfRemoval := by
    unfold stage
    rw [hsig, hmem, hres']
    simp [hself]
  constructor
  · unfold processAndMerge
    rw [hstage]
  · unfold processAndMerge
    rw [hok]

/-- C2 witness: the concrete good commit with an injected self-remove is
rejected with `AttemptedSelfRemoval`; without the injection it is
accepted. -/
theorem self_remove_commit_rejected_witness :
    (processAndMerge exampleEnv [] exampleGroup
        exampleGoodCommit.withInlineSelfRemove).2 =
      .error (ProcessMessageError.InvalidCommit
        StageCommitError.AttemptedSelfRemoval) ∧
    (processAndMerge exampleEnv [] exampleGroup exampleGoodCommit).2 =
      .ok (buildStaged exampleEnv exampleGroup exampleGoodCommit []) :=
  (self_remove_commit_rejected exampleEnv [] exampleGroup exampleGoodCommit
    (buildStaged exampleEnv exampleGroup exampleGoodCommit [])
    (by decide) (by decide) (by decide)).2

/-- The tampering of the path-requirement test: strip the update path from
a commit (the message is then re-signed). -/
def Commit.stripPath (c : Commit) : Commit :=
  { c with path := none }

/-- C3: the path-required classifier — a produced commit (with
`force_self_update` off) carries a path exactly when some committed
proposal is an Update, Remove, ExternalInit or GroupContextExtensions; a
receiver rejects a path-stripped re-signed variant of any valid
path-carrying commit with `InvalidCommit(RequiredPathNotFound)` whenever
the resolved proposals require a path; and a pathless commit whose
resolved proposals are only Adds and PreSharedKeys is accepted when its
remaining checks pass. -/
theorem path_required_classification (env : StageEnv)
    (store : List QueuedProposal) (g : PublicGroup) :
    (∀ (ps : List Proposal) (sender : Nat) (tag : ConfirmationTag),
      (createCommit ps sender tag false).has_path =
        ps.any Proposal.is_path_required) ∧
    (∀ (c : Commit) (ps : List (Proposal × Nat))
        (st : StagedPublicGroupDiff),
      stage env store g c = .ok st →
      resolve store c.sender c.proposals = .ok ps →
      pathRequired ps = true →
      env.verifySig c.stripPath = true →
      env.verifyMembership c.stripPath = true →
      (processAndMerge env store g c.stripPath).2 =
        .error (ProcessMessageError.InvalidCommit
          StageCommitError.RequiredPathNotFound)) ∧
    (∀ (c : Commit) (ps : List (Proposal × Nat)),
      resolve store c.sender c.proposals = .ok ps →
      (∀ p ∈ ps, p.1.proposal_type = ProposalType.Add ∨
        p.1.proposal_type = ProposalType.Presharedkey) →
      c.path = none →
      env.verifySig c = true →
      env.verifyMembership c = true →
      c.confirmation_tag = env.mac env.confirmation_key
        (buildStaged env g c ps).group_context.confirmed_transcript_hash →
      (processAndMerge env store g c).2 =
        .ok (buildStaged env g c ps)) := by
  refine ⟨?_, ?_, ?_⟩
  · intro ps sender tag
    unfold createCommit Commit.has_path
    cases h : ps.any Proposal.is_path_required <;> simp [h]
  · intro c ps st hok hres hpr hsig hmem
    obtain ⟨_, _, ps', hres', hsr', _, _, _, _⟩ := stage_ok_inv hok
    have hps : ps' = ps := Except.ok.inj (hres'.symm.trans hres)
    rw [hps] at hsr'
    have hres2 : resolve store c.stripPath.sender c.stripPath.proposals =
        .ok ps := hres
    have hstage : stage env store g c.stripPath =
        .error StageCommitError.RequiredPathNotFound := by
      unfold stage
      rw [hsig, hmem, hres2]
      simp [hsr', hpr, Commit.stripPath]
    unfold processAndMerge
    rw [hstage]
  · intro c ps hres hkind hpath hsig hmem htag
    have hsr : containsSelfRemove ps c.sender = false := by
      simp only [containsSelfRemove, List.any_eq_false]
      intro p hp
      obtain ⟨q, n⟩ := p
      rcases hkind _ hp with h1 | h1 <;>
        cases q <;> simp_all [Proposal.proposal_type]
    have hprf : pathRequired ps = false := by
      simp only [pathRequired, List.any_eq_false]
      intro p hp
      obtain ⟨q, n⟩ := p
      rcases hkind _ hp with h1 | h1 <;>
        cases q <;>
          simp_all [Proposal.proposal_type, Proposal.is_path_required]
    have hstage : stage env store g c = .ok (buildStaged env g c ps) := by
      unfold stage
      rw [hsig, hmem, hres]
      simp [hsr, hprf, hpath, htag]
    unfold processAndMerge
    rw [hstage]

/-- A concrete self-update commit carrying a path, staging successfully
against `exampleGroup` under `exampleEnv`. -/
def exampleUpdateCommit : Commit :=
  { proposals := [ProposalOrRef.inline (Proposal.Update exampleLeaf)]
    path := some []
    sender := 0
    confirmation_tag := [0, 1] }

/-- A concrete key package for the Add-only witness commit. -/
def exampleKeyPackage : KeyPackage :=
  { leaf_node := exampleLeaf }

/-- A concrete Add-only commit without a path. -/
def exampleAddCommit : Commit :=
  { proposals := [ProposalOrRef.inline (Proposal.Add exampleKeyPackage)]
    path := none
    sender := 0
    confirmation_tag := [0, 1] }

/-- C3 witness: a Remove-containing proposal set forces a path on the
produced commit; the path-stripped self-update is rejected with
`RequiredPathNotFound`; the pathless Add-only commit is accepted. -/
theorem path_required_classification_witness :
    (createCommit [Proposal.Remove 2] 0 [] false).has_path = true ∧
    (processAndMerge exampleEnv [] exampleGroup
        exampleUpdateCommit.stripPath).2 =
      .error (ProcessMessageError.InvalidCommit
        StageCommitError.RequiredPathNotFound) ∧
    (processAndMerge exampleEnv [] exampleGroup exampleAddCommit).2 =
      .ok (buildStaged exampleEnv exampleGroup exampleAddCommit
        [(Proposal.Add exampleKeyPackage, 0)]) := by
  obtain ⟨h1, h2, h3⟩ :=
    path_required_classification exampleEnv [] exampleGroup
  refine ⟨(h1 [Proposal.Remove 2] 0 []).trans (by decide), ?_, ?_⟩
  · exact h2 exampleUpdateCommit [(Proposal.Update exampleLeaf, 0)]
      (buildStaged exampleEnv exampleGroup exampleUpdateCommit
        [(Proposal.Update exampleLeaf, 0)])
      (by decide) (by decide) (by decide) (by decide) (by decide)
  · exact h3 exampleAddCommit [(Proposal.Add exampleKeyPackage, 0)]
      (by decide) (by decide) (by decide) (by decide) (by decide)
      (by decide)

/-- Helper: in a store with pairwise-distinct references (the store
deduplicates by reference), looking up a stored proposal's reference finds
exactly that proposal. -/
theorem find?_ref_unique (store : List QueuedProposal) (q : QueuedProposal)
    (huniq : store.Pairwise (fun a b => a.ref ≠ b.ref)) (hq : q ∈ store) :
    store.find? (fun x => x.ref == q.ref) = some q := by
  induction store with
  | nil => cases hq
  | cons a rest ih =>
    rcases List.mem_cons.mp hq with h | h
    · subst h
      simp [List.find?_cons]
    · have hne : a.ref ≠ q.ref := (List.pairwise_cons.mp huniq).1 q h
      have hbeq : (a.ref == q.ref) = false := beq_eq_false_iff_ne.mpr hne
      simp only [List.find?_cons, hbeq]
      exact ih (List.pairwise_cons.mp huniq).2 h

/-- Helper: resolving a commit that references a sublist `S` of a
duplicate-free store succeeds and yields exactly the proposals of `S`, in
order, with their stored senders. -/
theorem resolve_references (store : List QueuedProposal) (sender : Nat)
    (S : List QueuedProposal)
    (huniq : store.Pairwise (fun a b => a.ref ≠ b.ref))
    (hsub : ∀ q ∈ S, q ∈ store) :
    resolve store sender (S.map fun q => ProposalOrRef.reference q.ref) =
      .ok (S.map fun q => (q.proposal, q.sender)) := by
  induction S with
  | nil => rfl
  | cons q S ih =>
    have hfind := find?_ref_unique store q huniq (hsub q (by simp))
    show (match store.find? (fun x => x.ref == q.ref) with
      | some x =>
        match resolve store sender
            (S.map fun y : QueuedProposal =>
              ProposalOrRef.reference y.ref) with
        | .ok ps => Except.ok ((x.proposal, x.sender) :: ps)
        | .error e => .error e
      | none => .error StageCommitError.ProposalNotFound) = _
    rw [hfind, ih (fun x hx => hsub x (by simp [hx]))]
    rfl

/-- A commit that covers the proposals of `S` by reference. -/
def commitReferencing (S : List QueuedProposal) (sender : Nat)
    (tag : ConfirmationTag) (path : UpdatePath) : Commit :=
  { proposals := S.map fun q => ProposalOrRef.reference q.ref
    path := some path
    sender := sender
    confirmation_tag := tag }

/-- Helper: the references carried by a referencing commit are exactly the
references of `S`. -/
theorem refs_commitReferencing (S : List QueuedProposal) (sender : Nat)
    (tag : ConfirmationTag) (path : UpdatePath) :
    (commitReferencing S sender tag path).refs =
      S.map fun q => q.ref := by
  unfold commitReferencing Commit.refs
  induction S with
  | nil => rfl
  | cons q S ih => simpa using ih

/-- C8: a commit covering only a sublist `S` of the receiver's
(duplicate-free) proposal store is accepted whenever its remaining checks
pass, resolution applies exactly the proposals of `S` (in order, with
their stored senders), the staged result can be merged, and after the
merge exactly the complement of `S` remains in the store. -/
theorem partial_proposal_commit_accepted (env : StageEnv) (g : PublicGroup)
    (store S : List QueuedProposal) (sender : Nat)
    (tag : ConfirmationTag) (path : UpdatePath)
    (huniq : store.Pairwise (fun a b => a.ref ≠ b.ref))
    (hsub : ∀ q ∈ S, q ∈ store)
    (hsig : env.verifySig (commitReferencing S sender tag path) = true)
    (hmem : env.verifyMembership (commitReferencing S sender tag path) =
      true)
    (hcheck : env.checkPath g sender path = none)
    (hsr : containsSelfRemove (S.map fun q => (q.proposal, q.sender))
      sender = false)
    (htag : tag = env.mac env.confirmation_key
      (buildStaged env g (commitReferencing S sender tag path)
        (S.map fun q =>
          (q.proposal, q.sender))).group_context.confirmed_transcript_hash) :
    resolve store sender (commitReferencing S sender tag path).proposals =
      .ok (S.map fun q => (q.proposal, q.sender)) ∧
    (processAndMerge env store g (commitReferencing S sender tag path)).2 =
      .ok (buildStaged env g (commitReferencing S sender tag path)
        (S.map fun q => (q.proposal, q.sender))) ∧
    (processAndMerge env store g
        (commitReferencing S sender tag path)).1.1 =
      g.merge_diff (buildStaged env g (commitReferencing S sender tag path)
        (S.map fun q => (q.proposal, q.sender))) ∧
    ∀ q ∈ store,
      (q ∈ (processAndMerge env store g
          (commitReferencing S sender tag path)).1.2 ↔
        ¬ q.ref ∈ S.map fun x => x.ref) := by
  have hres : resolve store (commitReferencing S sender tag path).sender
      (commitReferencing S sender tag path).proposals =
      .ok (S.map fun q => (q.proposal, q.sender)) :=
    resolve_references store sender S huniq hsub
  have hcond : ¬(tag ≠ env.mac env.confirmation_key
      (buildStaged env g (commitReferencing S sender tag path)
        (S.map fun q =>
          (q.proposal,
            q.sender))).group_context.confirmed_transcript_hash) := by
    rw [← htag]
    simp
  have hstage : stage env store g (commitReferencing S sender tag path) =
      .ok (buildStaged env g (commitReferencing S sender tag path)
        (S.map fun q => (q.proposal, q.sender))) := by
    unfold stage
    rw [hsig, hmem, hres]
    simp only [commitReferencing] at hcond ⊢
    simp [hsr, hcheck, hcond]
  refine ⟨hres, ?_, ?_, ?_⟩
  · unfold processAndMerge
    rw [hstage]
  · unfold processAndMerge
    rw [hstage]
  · intro q hq
    unfold processAndMerge
    rw [hstage]
    show q ∈ storeAfterMerge store (commitReferencing S sender tag path) ↔ _
    unfold storeAfterMerge
    rw [refs_commitReferencing]
    simp [List.mem_filter, hq]

/-- A stored Remove proposal (the committed subset of the witness). -/
def exampleStoreQ1 : QueuedProposal :=
  { proposal := Proposal.Remove 2, sender := 0, ref := 10 }

/-- A stored Update proposal (the uncommitted complement of the witness). -/
def exampleStoreQ2 : QueuedProposal :=
  { proposal := Proposal.Update exampleLeaf, sender := 0, ref := 11 }

/-- A concrete proposal store holding both proposals. -/
def exampleStore : List QueuedProposal := [exampleStoreQ1, exampleStoreQ2]

/-- C8 witness: a commit referencing only the stored Remove proposal is
accepted against the two-proposal store, applies exactly that proposal,
merges, and leaves exactly the Update proposal in the store. -/
theorem partial_proposal_commit_accepted_witness :
    resolve exampleStore 0
      (commitReferencing [exampleStoreQ1] 0 [0, 1] []).proposals =
      .ok ([exampleStoreQ1].map fun q => (q.proposal, q.sender)) ∧
    (processAndMerge exampleEnv exampleStore exampleGroup
        (commitReferencing [exampleStoreQ1] 0 [0, 1] [])).2 =
      .ok (buildStaged exampleEnv exampleGroup
        (commitReferencing [exampleStoreQ1] 0 [0, 1] [])
        ([exampleStoreQ1].map fun q => (q.proposal, q.sender))) ∧
    (processAndMerge exampleEnv exampleStore exampleGroup
        (commitReferencing [exampleStoreQ1] 0 [0, 1] [])).1.1 =
      exampleGroup.merge_diff (buildStaged exampleEnv exampleGroup
        (commitReferencing [exampleStoreQ1] 0 [0, 1] [])
        ([exampleStoreQ1].map fun q => (q.proposal, q.sender))) ∧
    ∀ q ∈ exampleStore,
      (q ∈ (processAndMerge exampleEnv exampleStore exampleGroup
          (commitReferencing [exampleStoreQ1] 0 [0, 1] [])).1.2 ↔
        ¬ q.ref ∈ [exampleStoreQ1].map fun x => x.ref) :=
  partial_proposal_commit_accepted exampleEnv exampleGroup exampleStore
    [exampleStoreQ1] 0 [0, 1] []
    (by decide) (by decide) (by decide) (by decide) (by decide) (by decide)
    (by decide)

/-- C6: the four typed failures of `from_external`, in check order —
`UnknownSender` when the signer's leaf is blank or outside the tree built
from the nodes; `InvalidGroupInfoSignature` when the signer leaf is found
but the group info signature does not verify against its key;
`TreeHashMismatch` when the signature verifies but the computed tree hash
differs from the group context's; `UnsupportedMlsVersion` when all of the
above pass but the protocol version is not MLS 1.0. -/
theorem from_external_error_conditions (backend : Backend)
    (fromNodes : Ciphersuite → List (Option Node) →
      Except CreationFromExternalError TreeSync)
    (nodes : List (Option Node)) (vgi : VerifiableGroupInfo) (t : TreeSync)
    (h : fromNodes vgi.ciphersuite nodes = .ok t) :
    (t.leaf vgi.signer = none →
      PublicGroup.from_external backend fromNodes nodes vgi =
        .error CreationFromExternalError.UnknownSender) ∧
    (∀ l, t.leaf vgi.signer = some l →
      backend.verify vgi.ciphersuite.signature_algorithm l.signature_key
        (backend.serializeGroupInfoTbs vgi.payload) vgi.signature = false →
      PublicGroup.from_external backend fromNodes nodes vgi =
        .error CreationFromExternalError.InvalidGroupInfoSignature) ∧
    (∀ l, t.leaf vgi.signer = some l →
      backend.verify vgi.ciphersuite.signature_algorithm l.signature_key
        (backend.serializeGroupInfoTbs vgi.payload) vgi.signature = true →
      t.tree_hash ≠ vgi.payload.group_context.tree_hash →
      PublicGroup.from_external backend fromNodes nodes vgi =
        .error CreationFromExternalError.TreeHashMismatch) ∧
    (∀ l, t.leaf vgi.signer = some l →
      backend.verify vgi.ciphersuite.signature_algorithm l.signature_key
        (backend.serializeGroupInfoTbs vgi.payload) vgi.signature = true →
      t.tree_hash = vgi.payload.group_context.tree_hash →
      vgi.payload.group_context.protocol_version ≠ ProtocolVersion.Mls10 →
      PublicGroup.from_external backend fromNodes nodes vgi =
        .error CreationFromExternalError.UnsupportedMlsVersion) := by
  refine ⟨?_, ?_, ?_, ?_⟩
  · intro hleaf
    unfold PublicGroup.from_external
    dsimp only
    rw [h]
    dsimp only
    rw [hleaf]
  · intro l hleaf hverify
    unfold PublicGroup.from_external VerifiableGroupInfo.verify
    dsimp only
    rw [h]
    dsimp only
    rw [hleaf]
    dsimp only
    rw [hverify, if_neg Bool.false_ne_true]
  · intro l hleaf hverify hth
    unfold PublicGroup.from_external VerifiableGroupInfo.verify
    dsimp only
    rw [h]
    dsimp only
    rw [hleaf]
    dsimp only
    rw [hverify, if_pos rfl]
    dsimp only
    rw [if_pos hth]
  · intro l hleaf hverify hth hpv
    unfold PublicGroup.from_external VerifiableGroupInfo.verify
    dsimp only
    rw [h]
    dsimp only
    rw [hleaf]
    dsimp only
    rw [hverify, if_pos rfl]
    dsimp only
    rw [if_neg (fun hc => hc hth), if_pos hpv]

/-- C7: on every successful `from_external`, the resulting group's epoch is
the group info's epoch, and its interim transcript hash is empty at epoch 0
and otherwise the ciphersuite hash of the group info's confirmed transcript
hash concatenated with the serialized interim-transcript-hash input built
from the group info's confirmation tag. -/
theorem from_external_interim_transcript_hash (backend : Backend)
    (fromNodes : Ciphersuite → List (Option Node) →
      Except CreationFromExternalError TreeSync)
    (nodes : List (Option Node)) (vgi : VerifiableGroupInfo)
    (pg : PublicGroup) (exts : Extensions)
    (h : PublicGroup.from_external backend fromNodes nodes vgi =
      .ok (pg, exts)) :
    pg.group_context.epoch = vgi.payload.group_context.epoch ∧
    pg.interim_transcript_hash =
      (if vgi.payload.group_context.epoch = 0 then []
       else backend.hash vgi.ciphersuite.hash_algorithm
         (vgi.payload.group_context.confirmed_transcript_hash ++
           backend.serializeITHInput vgi.payload.confirmation_tag)) := by
  unfold PublicGroup.from_external at h
  dsimp only at h
  cases hfn : fromNodes vgi.ciphersuite nodes with
  | error e => rw [hfn] at h; simp at h
  | ok t =>
    rw [hfn] at h
    dsimp only at h
    cases hleaf : t.leaf vgi.signer with
    | none => rw [hleaf] at h; simp at h
    | some l =>
      rw [hleaf] at h
      dsimp only at h
      unfold VerifiableGroupInfo.verify at h
      by_cases hv : backend.verify vgi.ciphersuite.signature_algorithm
          l.signature_key (backend.serializeGroupInfoTbs vgi.payload)
          vgi.signature = true
      · rw [if_pos hv] at h
        dsimp only at h
        by_cases hth : t.tree_hash ≠ vgi.payload.group_context.tree_hash
        · rw [if_pos hth] at h; simp at h
        · rw [if_neg hth] at h
          by_cases hpv : vgi.payload.group_context.protocol_version ≠
              ProtocolVersion.Mls10
          · rw [if_pos hpv] at h; simp at h
          · rw [if_neg hpv] at h
            have hpair := Except.ok.inj h
            have hpg := congrArg Prod.fst hpair
            dsimp only at hpg
            rw [← hpg]
            exact ⟨rfl, rfl⟩
      · rw [if_neg hv] at h
        simp at h

/-- A concrete tree for the external-join witnesses. -/
def exampleTree : TreeSync :=
  { leaves := [some exampleLeaf, some exampleLeaf, some exampleLeaf]
    tree_hash := [9] }

/-- A concrete tree builder: ignores the wire nodes and returns
`exampleTree`. -/
def exampleFromNodes (_cs : Ciphersuite) (_nodes : List (Option Node)) :
    Except CreationFromExternalError TreeSync :=
  .ok exampleTree

/-- A concrete verifiable group info whose context matches `exampleTree`
at epoch 1, signed by the leaf at index 0. -/
def exampleVgi : VerifiableGroupInfo :=
  { payload :=
      { group_context :=
          { protocol_version := ProtocolVersion.Mls10
            ciphersuite := ⟨1, 2⟩
            group_id := [3]
            epoch := 1
            tree_hash := [9]
            confirmed_transcript_hash := [7]
            extensions := [] }
        extensions := []
        confirmation_tag := [4]
        signer := 0 }
    signature := [5] }

/-- A concrete external-join backend whose signature check accepts. -/
def exampleBackend : Backend :=
  { hash := fun _ b => [b.length]
    verify := fun _ _ _ _ => true
    serializeGroupInfoTbs := fun _ => [6]
    serializeITHInput := fun t => t }

/-- The same backend with a signature check that rejects. -/
def exampleBadBackend : Backend :=
  { hash := fun _ b => [b.length]
    verify := fun _ _ _ _ => false
    serializeGroupInfoTbs := fun _ => [6]
    serializeITHInput := fun t => t }

/-- C6 witness: with the rejecting backend and the signer leaf present,
`from_external` fails with `InvalidGroupInfoSignature` at a concrete
input. -/
theorem from_external_error_conditions_witness :
    PublicGroup.from_external exampleBadBackend exampleFromNodes []
        exampleVgi =
      .error CreationFromExternalError.InvalidGroupInfoSignature :=
  (from_external_error_conditions exampleBadBackend exampleFromNodes []
      exampleVgi exampleTree (by decide)).2.1 exampleLeaf
    (by decide) (by decide)

/-- The public group produced by the successful external-join witness. -/
def exampleExternalGroup : PublicGroup :=
  { treesync := exampleTree
    group_context := GroupContext.new ⟨1, 2⟩ [3] 1 [9] [7] []
    interim_transcript_hash := [2]
    confirmation_tag := [4] }

/-- C7 witness: the successful external join at epoch 1 produces the
interim transcript hash computed from the confirmed transcript hash and
the serialized confirmation tag. -/
theorem from_external_interim_transcript_hash_witness :
    exampleExternalGroup.group_context.epoch =
      exampleVgi.payload.group_context.epoch ∧
    exampleExternalGroup.interim_transcript_hash =
      (if exampleVgi.payload.group_context.epoch = 0 then []
       else exampleBackend.hash exampleVgi.ciphersuite.hash_algorithm
         (exampleVgi.payload.group_context.confirmed_transcript_hash ++
           exampleBackend.serializeITHInput
             exampleVgi.payload.confirmation_tag)) :=
  from_external_interim_transcript_hash exampleBackend exampleFromNodes []
    exampleVgi exampleExternalGroup [] (by decide)
